import Mathlib

/-!
Verification of the parameter engine of this repository (`src/param/`),
checked against its natural-language specification.

The development is a shallow embedding of the code in
`src/param/parameterized.py` (the authoritative copy: every claim cites it).
Python values are modelled as objects carrying an identity (`oid`, for the
`is` operator) and a structural value (for `==`); exceptions are modelled
with `Except`/`Option PyErr`; each embedded function mirrors the statements
of the cited Python function in source order, and comments quote the lines
being embedded.
-/

/-- A structural Python value, as far as the embedded code inspects one:
`None`, an int, a string or a bool. -/
inductive PyVal where
  | vnone : PyVal
  | vint : Int → PyVal
  | vstr : String → PyVal
  | vbool : Bool → PyVal
deriving Repr, DecidableEq

/-- A Python object: an identity (`oid`, compared by the `is` operator) and its
structural value (compared by `==`). `None` is a singleton, so an object is
`None` exactly when its structural value is `PyVal.vnone`. -/
structure PyObj where
  oid : Nat
  val : PyVal
deriving Repr, DecidableEq

/-- The `None` object (identity 0 is reserved for it throughout). -/
def noneObj : PyObj := { oid := 0, val := PyVal.vnone }

/-- The Python exceptions the embedded code can raise. -/
inductive PyErr where
  | attributeError : String → PyErr
  | typeError : String → PyErr
  | valueError : String → PyErr
  | nameError : String → PyErr
deriving Repr, DecidableEq

/-- A `Watcher` record (parameterized.py lines 667-720): the namedtuple fields
`(inst, cls, fn, mode, onlychanged, parameter_names, what, queued,
precedence)`. `inst`/`cls` are object identities; `fn` stands for the callback
object. -/
structure Watcher where
  inst : Option Nat := none
  cls : Option Nat := none
  fn : Nat := 0
  mode : String := "args"
  onlychanged : Bool := true
  parameter_names : List String := []
  what : String := "value"
  queued : Bool := false
  precedence : Int := 0
deriving Repr, DecidableEq

/-- An `Event` record (parameterized.py lines 646-665): the namedtuple fields
`(what, name, obj, cls, old, new, type)`. -/
structure Event where
  what : String := "value"
  name : Option String := none
  obj : Option Nat := none
  cls : Option Nat := none
  old : PyObj := noneObj
  new : PyObj := noneObj
  type : Option String := none
deriving Repr, DecidableEq

/-- The slots of a `Parameter` object (parameterized.py lines 763-961,
`__slots__` at lines 918-921 of parameter.py's identical copy): `owner`,
`name`, `_internal_name`, `default`, `doc`, `constant`, `readonly`,
`allow_None`, `_label`, `per_instance`, `_deep_copy`, `class_member`,
`pickle_default_value`, `precedence`, `watchers`. A fresh object has no slot
assigned; only the `name` slot's unassigned state is observable in the
embedded code (via `getattr(self, 'name', None)`), and it is modelled by
`none`. -/
structure ParamSlots where
  owner : Option Nat := none
  name : Option String := none
  internal_name : Option String := none
  default : PyObj := noneObj
  doc : Option String := none
  constant : Bool := false
  readonly : Bool := false
  allow_None : Bool := false
  label : Option String := none
  per_instance : Bool := true
  deep_copy : Bool := false
  class_member : Bool := false
  pickle_default_value : Bool := true
  precedence : Option Int := none
  watchers : List (String × List Watcher) := []
deriving Repr, DecidableEq

/-- Truthiness of `getattr(self, 'name', None)` in Python: `None` and the
empty string are falsy, any other string is truthy. -/
def nameTruthy : Option String → Bool
  | none => false
  | some s => !s.isEmpty

/-- The guard at the top of `Parameter.__setattr__` (parameterized.py lines
1029-1032):

    if attribute == 'name' or getattr(self, 'name', None) and value != self.name:
        raise AttributeError("Parameter name cannot be modified after "
                             "it has been bound to a Parameterized.")

Note the `or`: the guard fires on every assignment to `name`, bound or not.
`valueEqName` is the Python comparison `value == self.name` for the value
being assigned (its second disjunct is evaluated only when the name slot is
truthy, so the flag is irrelevant otherwise). -/
def nameGuardRaises (curName : Option String) (attr : String) (valueEqName : Bool) : Bool :=
  attr = "name" || (nameTruthy curName && !valueEqName)

/-- The error the `__setattr__` guard raises. -/
def nameGuardError : PyErr :=
  PyErr.attributeError "Parameter name cannot be modified after it has been bound to a Parameterized."

/-- One `self.<attr> = value` statement on a Parameter object, as
`Parameter.__setattr__` (parameterized.py lines 1029-1063) executes it: the
name guard first, then `super().__setattr__` (here `apply`). In every
assignment this file embeds the attribute is not watched (`watched` is false:
the `watchers` dict is empty or missing at each embedded call site), so the
slot-watcher dispatch block at the end of `__setattr__` returns without
effect and is not modelled further. -/
def paramSetattr (s : ParamSlots) (attr : String) (valueEqName : Bool)
    (apply : ParamSlots → ParamSlots) : Except PyErr ParamSlots :=
  if nameGuardRaises s.name attr valueEqName then Except.error nameGuardError
  else Except.ok (apply s)

/-- Line 954: `self.allow_None = (default is None or allow_None)`. `None` is a
singleton, so the identity test is a structural test against `vnone`. -/
def allowNoneValue (default : PyObj) (allow_None : Bool) : Bool :=
  default.val = PyVal.vnone || allow_None

/-- The `deep_copy` property setter (parameterized.py lines 1017-1027): the
value stored in the `_deep_copy` slot is `False` for readonly parameters and
`deep_copy or self.constant` otherwise. -/
def deepCopyValue (readonly constant requested : Bool) : Bool :=
  if readonly then false else (requested || constant)

/-- `Parameter.__validate_slots` (parameterized.py lines 979-982): raises
ValueError when `self.constant and self.allow_None`. (No code path in
parameterized.py invokes it: its only caller `__post_owner_init` is itself
never called.) -/
def validateSlots (constant allow_None : Bool) : Except PyErr Unit :=
  if constant && allow_None then
    Except.error (PyErr.valueError "constant values cannot be allowed to be None.")
  else Except.ok ()

/-- The keyword arguments of `Parameter.__init__` (parameterized.py lines
830-834). -/
structure InitArgs where
  default : PyObj := noneObj
  doc : Option String := none
  constant : Bool := false
  readonly : Bool := false
  allow_None : Bool := false
  label : Option String := none
  per_instance : Bool := true
  deep_copy : Bool := false
  class_member : Bool := false
  pickle_default_value : Bool := true
  precedence : Option Int := none
deriving Repr, DecidableEq

/-- `Parameter.__init__` (parameterized.py lines 947-961), embedded as the
exact sequence of attribute assignments of its body, each routed through
`Parameter.__setattr__` (every attribute assignment on a Parameter is).
The slots start unassigned; the second statement `self.name = None` already
trips the name guard (`attribute == 'name'` is its first disjunct), so no
`Parameter` object is ever fully constructed. The remaining statements are
embedded for reference; `valueEqName` flags on unreached statements follow
the structural comparison of the assigned value with the name slot. -/
def Parameter.init (a : InitArgs) : Except PyErr ParamSlots := do
  -- self.owner = None
  let s ← paramSetattr {} "owner" false (fun s => { s with owner := none })
  -- self.name = None  (raises: the guard's first disjunct)
  let s ← paramSetattr s "name" true (fun s => { s with name := none })
  -- self._internal_name = None
  let s ← paramSetattr s "_internal_name" false (fun s => { s with internal_name := none })
  -- self.default = default
  let s ← paramSetattr s "default" (s.name = some "" && a.default.val = PyVal.vstr "")
    (fun s => { s with default := a.default })
  -- self.doc = doc
  let s ← paramSetattr s "doc" false (fun s => { s with doc := a.doc })
  -- self.constant = constant
  let s ← paramSetattr s "constant" false (fun s => { s with constant := a.constant })
  -- self.readonly = readonly
  let s ← paramSetattr s "readonly" false (fun s => { s with readonly := a.readonly })
  -- self.allow_None = (default is None or allow_None)
  let s ← paramSetattr s "allow_None" false
    (fun s => { s with allow_None := allowNoneValue a.default a.allow_None })
  -- self._label = label
  let s ← paramSetattr s "_label" false (fun s => { s with label := a.label })
  -- self.per_instance = per_instance
  let s ← paramSetattr s "per_instance" false (fun s => { s with per_instance := a.per_instance })
  -- self.deep_copy = deep_copy  (property setter: stores into _deep_copy)
  let s ← paramSetattr s "deep_copy" false
    (fun s => { s with deep_copy := deepCopyValue s.readonly s.constant a.deep_copy })
  -- self.class_member = class_member
  let s ← paramSetattr s "class_member" false (fun s => { s with class_member := a.class_member })
  -- self.pickle_default_value = pickle_default_value
  let s ← paramSetattr s "pickle_default_value" false
    (fun s => { s with pickle_default_value := a.pickle_default_value })
  -- self.precedence = precedence
  let s ← paramSetattr s "precedence" false (fun s => { s with precedence := a.precedence })
  -- self.watchers = {}
  let s ← paramSetattr s "watchers" false (fun s => { s with watchers := [] })
  Except.ok s

/-- `Parameter.__set_name__` (parameterized.py lines 963-974): raises if the
parameter is already bound (`self.name is not None`); otherwise executes
`self.name = attrib_name` (through `__setattr__`, whose guard raises on every
assignment to `name`) and then `self._internal_name = "_%s_param_value"`. -/
def Parameter.setName (s : ParamSlots) (attrib_name : String) : Except PyErr ParamSlots := do
  if s.name.isSome then
    Except.error (PyErr.attributeError
      "The Parameter has already been assigned a name; Parameters may not be shared by multiple classes.")
  else do
    let s ← paramSetattr s "name" (s.name = some attrib_name)
      (fun s => { s with name := some attrib_name })
    let s ← paramSetattr s "_internal_name" false
      (fun s => { s with internal_name := some ("_" ++ attrib_name ++ "_param_value") })
    Except.ok s

/-- A Python `__dict__` as the embedded code uses one: keys are the
`_internal_name` of a parameter, which is `None` on an unbound parameter, so
keys are `Option String`. Assignment replaces an existing entry. -/
abbrev PyDict := List (Option String × PyObj)

/-- `d.get(k)` / `d.get(k, default-absent)`. -/
def dictFind (d : PyDict) (k : Option String) : Option PyObj :=
  (d.find? (fun kv => kv.1 = k)).map (fun kv => kv.2)

/-- `d[k] = v`. -/
def dictSet (d : PyDict) (k : Option String) (v : PyObj) : PyDict :=
  if (d.find? (fun kv => kv.1 = k)).isSome then
    d.map (fun kv => if kv.1 = k then (k, v) else kv)
  else d ++ [(k, v)]

/-- `owner.__dict__.get(self._internal_name, None) is None` (parameterized.py
line 1116): true when the key is absent or the stored object is `None`. -/
def storedIsNone (stored : Option PyObj) : Bool :=
  match stored with
  | none => true
  | some o => o.val = PyVal.vnone

/-- The effective owner of a value write in `Parameter.__set__`: a
Parameterized instance (with its `__dict__` and `initialized` flag) or a
Parameterized class, that is an instance of `ParameterizedMetaclass` (with
the class `__dict__`). -/
inductive SetTarget where
  | inst : PyDict → Bool → SetTarget
  | cls : PyDict → SetTarget
deriving Repr, DecidableEq

/-- The target's `__dict__`. -/
def SetTarget.dict : SetTarget → PyDict
  | SetTarget.inst d _ => d
  | SetTarget.cls d => d

/-- Replace the target's `__dict__`. -/
def SetTarget.withDict : SetTarget → PyDict → SetTarget
  | SetTarget.inst _ i, d => SetTarget.inst d i
  | SetTarget.cls _, d => SetTarget.cls d

/-- The outcome of `Parameter.__set__`: the effective owner afterwards (its
`__dict__` reflects any store that happened before a raise), the exception
raised if any, and the watcher callbacks the call invoked. The entire
value-watcher dispatch block of `__set__` (parameterized.py lines 1140-1163)
is commented out in this repository, so no branch ever records an
invocation. -/
structure SetResult where
  owner : SetTarget
  error : Option PyErr
  invocations : List Watcher
deriving Repr, DecidableEq

/-- The error `__set__` raises for a readonly parameter (line 1108). -/
def readonlyError : PyErr :=
  PyErr.typeError "Read-only parameter cannot be set/modified"

/-- The error `issubclass(owner, ...)` raises when `owner` is an instance. -/
def issubclassError : PyErr :=
  PyErr.typeError "issubclass() arg 1 must be a class"

/-- `Parameter.__set__` (parameterized.py lines 1081-1163), the
`@instance_descriptor` wrapper included (it is the identity here: no instance
parameter shadows `self` in any embedded scenario, and `getattr(obj,
'_instance__params', {})` defaults to an empty dict). Statements in source
order:
1. raise TypeError if `self.readonly`;
2. `self.validate(val)` — the base Parameter accepts anything (`adapt` is the
   identity, `_validate_value` a no-op);
3. `owner = obj if not self.class_member else self.owner` — `classOwnerDict`
   is the owning class's `__dict__` for the `class_member` route;
4. the `constant` branch: allowed when `self.default is None` and no stored
   value exists; otherwise raises TypeError unless `val is _old` (identity);
5. `owner.__dict__[self._internal_name] = val`, then `self._post_setter`
   (a no-op);
6. `if not isinstance(owner, (Parameterized, ParameterizedMetaclass)) or
   issubclass(owner, (Parameterized, ParameterizedMetaclass)): return` —
   for a class owner `issubclass` is true and the method returns; for an
   instance owner `issubclass` raises TypeError (its first argument is not a
   class), after the value was already stored;
7. the rest of the method (`initialized` check and the watcher dispatch) is
   commented out in the source apart from the `initialized` check, which is
   unreachable: step 6 has already returned or raised. -/
def Parameter.set (p : ParamSlots) (obj : SetTarget) (classOwnerDict : PyDict)
    (val : PyObj) : SetResult :=
  if p.readonly then
    { owner := obj, error := some readonlyError, invocations := [] }
  else
    let owner : SetTarget := if p.class_member then SetTarget.cls classOwnerDict else obj
    let stored := dictFind owner.dict p.internal_name
    let constantViolation : Bool :=
      p.constant &&
        !(p.default.val = PyVal.vnone && storedIsNone stored) &&
        (val.oid ≠ ((stored.getD p.default).oid))
    if constantViolation then
      { owner := owner,
        error := some (PyErr.typeError "Constant parameter cannot be modified"),
        invocations := [] }
    else
      let owner2 := owner.withDict (dictSet owner.dict p.internal_name val)
      match owner2 with
      | SetTarget.inst _ _ =>
        { owner := owner2, error := some issubclassError, invocations := [] }
      | SetTarget.cls _ =>
        { owner := owner2, error := none, invocations := [] }

/-- `Parameter.__get__` (parameterized.py lines 1067-1079):
`return obj.__dict__.get(self._internal_name, self.default)`. Accessing the
attribute on the owning class calls the descriptor with `obj = None`, and
`None.__dict__` raises AttributeError; there is no `obj is None` branch in
this repository's copy. -/
def Parameter.get (p : ParamSlots) (obj : Option PyDict) : Except PyErr PyObj :=
  match obj with
  | none => Except.error (PyErr.attributeError "NoneType object has no attribute __dict__")
  | some d => Except.ok ((dictFind d p.internal_name).getD p.default)

/-- A Parameterized class for the embedding: the classes of
`classlist(mcs)[::-1]` (most specific first), each with the Parameter-valued
attributes of its own `__dict__`. -/
abbrev ClassHierarchy := List (Nat × List (String × ParamSlots))

/-- An item of the tuple `ParameterizedMetaclass.get_param_descriptor`
returns: a Parameter, a class, or `None`. -/
inductive GPDItem where
  | param : ParamSlots → GPDItem
  | cls : Nat → GPDItem
  | pynone : GPDItem
deriving Repr, DecidableEq

/-- `ParameterizedMetaclass.get_param_descriptor` (parameterized.py lines
2499-2510): walks `classlist(mcs)[::-1]` and returns the 2-tuple
`(parameter, declaring class)`, or `(None, None)` when no class declares the
attribute as a Parameter. The tuple is embedded as a list of its items so a
caller's unpacking arity is visible. -/
def get_param_descriptor (hier : ClassHierarchy) (param_name : String) : List GPDItem :=
  match hier.findSome? (fun ce =>
      (ce.2.find? (fun kv => kv.1 = param_name)).map (fun kv => (ce.1, kv.2))) with
  | some (c, p) => [GPDItem.param p, GPDItem.cls c]
  | none => [GPDItem.pynone, GPDItem.pynone]

/-- Python tuple unpacking into a single target (`x, = t`). -/
def unpack1 (l : List α) : Except PyErr α :=
  match l with
  | [a] => Except.ok a
  | [] => Except.error (PyErr.valueError "not enough values to unpack (expected 1, got 0)")
  | _ => Except.error (PyErr.valueError "too many values to unpack (expected 1)")

/-- `ParameterizedMetaclass.__setattr__` (parameterized.py lines 2464-2496),
embedded to the point it can proceed. Its first statement is

    parameter, = mcs.get_param_descriptor(attribute_name)

a single-target unpacking of that method's 2-tuple, which raises ValueError
on every call; the routing below it (`mcs.__dict__[attribute_name].__set__(mcs,
value)` when a Parameter exists, `type.__setattr__` otherwise) is
unreachable and not embedded further. -/
def metaclassSetattr (hier : ClassHierarchy) (attribute_name : String) :
    Except PyErr Unit := do
  let _parameter ← unpack1 (get_param_descriptor hier attribute_name)
  Except.ok ()

/-- Overwrite-or-append on a name-keyed association list (Python dict update
semantics, insertion order retained). -/
def assocSet (l : List (String × ParamSlots)) (k : String) (v : ParamSlots) :
    List (String × ParamSlots) :=
  if (l.find? (fun kv => kv.1 = k)).isSome then
    l.map (fun kv => if kv.1 = k then (k, v) else kv)
  else l ++ [(k, v)]

/-- `ClassParameters.objects` (parameterized.py lines 1482-1495): the merged
`name → Parameter` dict of a class, built by walking `classlist(owner_cls)`
(base classes first) and collecting the Parameter-valued attributes of each
class `__dict__`; later classes overwrite earlier entries. `hier` is most
specific first, so the walk is over `hier.reverse`. -/
def objectsMerged (hier : ClassHierarchy) : List (String × ParamSlots) :=
  hier.reverse.foldl (fun acc ce =>
    ce.2.foldl (fun acc kv => assocSet acc kv.1 kv.2) acc) []

/-- What `InstanceParameters._setup_params` produces: the instance `__dict__`
after the deep-copy phase, the plain attributes the keyword phase would have
written on the registry object itself (`setattr(self, name, val)` targets the
`InstanceParameters` object, not the owning instance), and the exception the
keyword phase raises. -/
structure SetupResult where
  instDict : PyDict
  selfAttrs : List (String × PyObj)
  error : Option PyErr
deriving Repr, DecidableEq

/-- The keyword loop of `_setup_params` (parameterized.py lines 1568-1575):

    for name, val in params.items():
        desc, = self.owner_cls.get_param_descriptor(name)
        if not desc:
            continue
        setattr(self, name, val)

`desc, =` unpacks `get_param_descriptor`'s 2-tuple into one target, which
raises ValueError on the first keyword; the `continue`/`setattr` cases below
it are embedded for reference. `acc` collects the registry-object attributes
written so far (in reverse). -/
def setupKwargsLoop (hier : ClassHierarchy) (acc : List (String × PyObj)) :
    List (String × PyObj) → List (String × PyObj) × Option PyErr
  | [] => (acc, none)
  | (name, val) :: rest =>
    match unpack1 (get_param_descriptor hier name) with
    | Except.error e => (acc, some e)
    | Except.ok desc =>
      match desc with
      | GPDItem.pynone => setupKwargsLoop hier acc rest
      | _ => setupKwargsLoop hier ((name, val) :: acc) rest

/-- `InstanceParameters._setup_params` (parameterized.py lines 1541-1575).
Phase 1 collects every parameter with `deep_copy=True` other than `name`
(the per-ancestor collection loop collapses to the most derived registry:
`classlist` ends at the owning class, whose merged `objects()` covers and
overwrites every ancestor entry) and writes `copy.deepcopy(default)` into the
instance `__dict__` under the parameter's `_internal_name`
(`_deep_copy_param`, lines 1577-1591, with `shared_parameters._share` False);
the deep copy is a fresh object, given identity `freshBase + index`.
Phase 2 is `setupKwargsLoop`, which raises on the first keyword. There is no
logging call of any kind in the function. -/
def setup_params (hier : ClassHierarchy) (freshBase : Nat)
    (params : List (String × PyObj)) : SetupResult :=
  let toCopy := (objectsMerged hier).filter (fun kv => kv.2.deep_copy && kv.1 ≠ "name")
  let instDict := (toCopy.enum.foldl (fun d pv =>
    dictSet d pv.2.2.internal_name { oid := freshBase + pv.1, val := pv.2.2.default.val }) [])
  let r := setupKwargsLoop hier [] params
  { instDict := instDict, selfAttrs := r.1.reverse, error := r.2 }

/-- Binding of a Python call's arguments against a function's parameter list:
the first `positional` parameters are bound positionally; a keyword that
names an already-bound parameter raises, then an unknown keyword, then a
missing parameter. -/
def bindCall (paramNames : List String) (positional : Nat) (kwnames : List String) :
    Option PyErr :=
  if kwnames.any (fun k => (paramNames.take positional).contains k) then
    some (PyErr.typeError "got multiple values for argument")
  else if kwnames.any (fun k => !paramNames.contains k) then
    some (PyErr.typeError "got an unexpected keyword argument")
  else if (paramNames.drop positional).any (fun k => !kwnames.contains k) then
    some (PyErr.typeError "missing a required argument")
  else none

/-- The parameters of `InstanceParameters.__init__` (parameterized.py lines
1536-1539): `(self, owner_cls, owner_inst)`. -/
def instanceParametersInitParams : List String := ["self", "owner_cls", "owner_inst"]

/-- `Parameterized.__init__` (parameterized.py lines 2768-2791). After the
plain bookkeeping attributes (`initialized`, `_parameters_state`,
`_instance__params`, `_param_watchers`, `_dynamic_watchers`) it evaluates

    self._param_container = InstanceParameters(self.__class__, self=self)

whose argument binding raises TypeError: the keyword `self` names the first
parameter of `InstanceParameters.__init__`, already bound positionally to the
new registry object. The subsequent `self.param._generate_name()` and
`self.param._setup_params(**params)` calls are unreachable; `setup_params`
is chained here to show the construction pipeline the source intends (the
elided `_generate_name` is itself unreachable). On success the result would
be the instance `__dict__`. -/
def Parameterized.init (hier : ClassHierarchy) (freshBase : Nat)
    (kwargs : List (String × PyObj)) : Except PyErr PyDict :=
  match bindCall instanceParametersInitParams 2 ["self"] with
  | some e => Except.error e
  | none =>
    let r := setup_params hier freshBase kwargs
    match r.error with
    | some e => Except.error e
    | none => Except.ok r.instDict

/-- The `_parameters_state` dict shared by the registry objects
(parameterized.py lines 1385-1391 and 2773-2778): the batching flag, the
trigger flag and the queued events and watchers, exposed through the
`_BATCH_WATCH`/`_TRIGGER`/`_events`/`_watchers` properties. -/
structure DispatcherState where
  BATCH_WATCH : Bool := false
  TRIGGER : Bool := false
  events : List Event := []
  watchers : List Watcher := []
deriving Repr, DecidableEq

/-- `ClassParameters.__getattr__` (parameterized.py lines 1452-1460): tries
`self.__getitem__(attr)` (a lookup in `objects()`); a KeyError becomes
AttributeError. On success the method falls off without a `return`
statement, so the attribute resolves to `None`. -/
def classParametersGetattrFallback (paramNames : List String) (attr : String) :
    Except PyErr Unit :=
  if paramNames.contains attr then Except.ok ()
  else Except.error (PyErr.attributeError ("param object has no attribute " ++ attr))

/-- The attributes resolvable on an `InstanceParameters` object before the
`__getattr__` fallback runs: the instance attributes assigned by
`ClassParameters.__init__`/`InstanceParameters.__init__` (`owner_cls`,
`_parameters_state`, `owner_inst`) and the class's properties and public
methods. The fork renamed the upstream `self_or_cls`/`self`/`cls` attributes
to `owner_cls`/`owner_inst`; no attribute named `self_or_cls` remains. -/
def instanceParametersAttrNames : List String :=
  ["owner_cls", "owner_inst", "_parameters_state",
   "_BATCH_WATCH", "_TRIGGER", "_events", "_watchers", "watchers",
   "objects", "update", "watch", "unwatch", "watch_values", "trigger",
   "add_parameter", "values", "keys"]

/-- Attribute resolution on an `InstanceParameters` object: the normal
attributes first, then `ClassParameters.__getattr__` over the declared
parameter names. -/
def instanceParametersGetattr (paramNames : List String) (attr : String) :
    Except PyErr Unit :=
  if instanceParametersAttrNames.contains attr then Except.ok ()
  else classParametersGetattrFallback paramNames attr

/-- `InstanceParameters.update` (parameterized.py lines 1698-1739), embedded
to its failure point. Statements in source order:

    BATCH_WATCH = self_._BATCH_WATCH
    self_._BATCH_WATCH = True
    self_or_cls = self_.self_or_cls

The third statement looks up `self_or_cls`, an attribute that does not exist
on the fork's registry objects; `__getattr__` raises AttributeError (unless a
parameter is literally named "self_or_cls", in which case the lookup yields
`None` and the continuation, not embedded, raises on `None.param` a few
lines later). The keyword checks, the per-key `setattr` loop and every
statement restoring `_BATCH_WATCH` (lines 1723, 1728, 1731) are below the
failing lookup, so the flag stays True. Returns the post-state and the
exception. -/
def InstanceParameters.update (paramNames : List String) (st : DispatcherState)
    (_kwargs : List (String × PyObj)) : DispatcherState × Option PyErr :=
  let st1 := { st with BATCH_WATCH := true }
  match instanceParametersGetattr paramNames "self_or_cls" with
  | Except.error e => (st1, some e)
  | Except.ok _ => (st1, none)

/-- `InstanceParameters._batch_call_watchers` (parameterized.py lines
1837-1855), embedded to its failure point: the `while` condition is
`self_.self_or_cls.param._events`, and evaluating `self_.self_or_cls` raises
AttributeError as in `update`; the drain body (the per-(name, what) event
dict, the precedence sort and the `_execute_watcher` calls) is below it and
never runs. Returns the post-state, the watcher invocations performed (none)
and the exception. -/
def InstanceParameters.batchCallWatchers (paramNames : List String)
    (st : DispatcherState) : DispatcherState × List Watcher × Option PyErr :=
  match instanceParametersGetattr paramNames "self_or_cls" with
  | Except.error e => (st, [], some e)
  | Except.ok _ => (st, [], none)

/-- The `batch_call_watchers(parameterized)` context manager (parameterized.py
lines 93-109): saves the batching flag, sets it True, runs the body, and in
`finally` restores the saved flag and, if the saved flag was False, drains
via `InstanceParameters._batch_call_watchers`. An exception raised by the
body propagates unless the drain raises during `finally`, in which case the
drain's exception replaces it. The body returns its post-state, the watcher
invocations it performed and its exception. -/
def batchScope (paramNames : List String)
    (body : DispatcherState → DispatcherState × List Watcher × Option PyErr)
    (st : DispatcherState) : DispatcherState × List Watcher × Option PyErr :=
  let saved := st.BATCH_WATCH
  let st1 := { st with BATCH_WATCH := true }
  let r := body st1
  let st2 := { r.1 with BATCH_WATCH := saved }
  if !saved then
    let d := InstanceParameters.batchCallWatchers paramNames st2
    (d.1, r.2.1 ++ d.2.1, match d.2.2 with | some e => some e | none => r.2.2)
  else (st2, r.2.1, r.2.2)

/-- The body of the C4 scenario: three consecutive assignments to the same
parameter of one instance (`c.y = v1; c.y = v2; c.y = v3`) inside the
batching scope. Each assignment is `Parameter.__set__` on the instance; a
raise aborts the remaining assignments. `Parameter.__set__` never touches
`_parameters_state` (its dispatch block is commented out), so the dispatcher
state passes through unchanged. -/
def setThrice (p : ParamSlots) (d : PyDict) (v1 v2 v3 : PyObj)
    (st : DispatcherState) : DispatcherState × List Watcher × Option PyErr :=
  let r1 := Parameter.set p (SetTarget.inst d true) [] v1
  match r1.error with
  | some e => (st, r1.invocations, some e)
  | none =>
    let r2 := Parameter.set p r1.owner [] v2
    match r2.error with
    | some e => (st, r1.invocations ++ r2.invocations, some e)
    | none =>
      let r3 := Parameter.set p r2.owner [] v3
      (st, r1.invocations ++ r2.invocations ++ r3.invocations, r3.error)

/-- `ClassParameters._register_watcher` (parameterized.py lines 2162-2181).
The loop body references the name `self_`, but the method's parameter is
named `self`: `self_` is undefined, so the body raises NameError for each
watched parameter name — when the name is not declared, while the ValueError
message is formatted (`self_.cls.__name__`), and when it is declared, in the
condition `self_.self is not None`. With no watched names the loop does not
run. -/
def registerWatcher (paramNames : List String) (w : Watcher) : Except PyErr Unit :=
  match w.parameter_names with
  | [] => Except.ok ()
  | parameter_name :: _ =>
    if !paramNames.contains parameter_name then
      Except.error (PyErr.nameError "name self_ is not defined")
    else
      Except.error (PyErr.nameError "name self_ is not defined")

/-- `InstanceParameters.watch` (parameterized.py lines 2183-2233): rejects a
negative precedence with ValueError, builds the Watcher record with
`mode='args'`, and registers it through `_register_watcher('append', ...)`. -/
def InstanceParameters.watch (paramNames : List String) (ownerInst ownerCls : Option Nat)
    (fn : Nat) (parameter_names : List String) (what : String) (onlychanged : Bool)
    (queued : Bool) (precedence : Int) : Except PyErr Watcher :=
  if precedence < 0 then
    Except.error (PyErr.valueError
      "User-defined watch callbacks must declare a positive precedence.")
  else
    let w : Watcher :=
      { inst := ownerInst, cls := ownerCls, fn := fn, mode := "args",
        onlychanged := onlychanged, parameter_names := parameter_names,
        what := what, queued := queued, precedence := precedence }
    match registerWatcher paramNames w with
    | Except.error e => Except.error e
    | Except.ok _ => Except.ok w

/-! Concrete scenario material shared by the claim theorems: the class `C`
of the spec's concrete scenarios, with a constant parameter `x` (default 5),
a plain parameter `y` (default 0), a readonly parameter `r` (default 7), and
the inherited `name` parameter of `Parameterized` (line 2765: `String`,
default None, constant). The `ParamSlots` records are written in the bound
state the source intends after class finalization (name and internal name
assigned), which the embedded operations on parameters take as input. -/

/-- Parameter x of class C: default 5, constant (so `deep_copy` holds, as the
deep_copy setter forces for constant parameters). -/
def xParamC : ParamSlots :=
  { name := some "x", internal_name := some "_x_param_value",
    default := { oid := 1, val := PyVal.vint 5 }, constant := true, deep_copy := true }

/-- Parameter y of class C: default 0, unrestricted. -/
def yParamC : ParamSlots :=
  { name := some "y", internal_name := some "_y_param_value",
    default := { oid := 2, val := PyVal.vint 0 } }

/-- Parameter r of class C: readonly, default 7. -/
def rParamC : ParamSlots :=
  { name := some "r", internal_name := some "_r_param_value",
    default := { oid := 3, val := PyVal.vint 7 }, readonly := true }

/-- The `name` parameter `Parameterized` declares (parameterized.py line 2765):
`String(default=None, constant=True)`, whose `__init__` would compute
`allow_None=True` from the None default. -/
def nameParamP : ParamSlots :=
  { name := some "name", internal_name := some "_name_param_value",
    default := noneObj, constant := true, allow_None := true, deep_copy := true }

/-- The class hierarchy of C: C itself, then Parameterized. -/
def hierC : ClassHierarchy :=
  [(10, [("x", xParamC), ("y", yParamC), ("r", rParamC)]), (2, [("name", nameParamP)])]

/-- The declared parameter names of C (the keys of `objects()`). -/
def paramNamesC : List String := ["x", "y", "r", "name"]

/-- Scenario objects: the int 1, 2, 3 and 10 values used in the concrete
scenarios, each a distinct Python object. -/
def objOne : PyObj := { oid := 21, val := PyVal.vint 1 }

def objTwo : PyObj := { oid := 22, val := PyVal.vint 2 }

def objThree : PyObj := { oid := 23, val := PyVal.vint 3 }

def objTen : PyObj := { oid := 24, val := PyVal.vint 10 }

/-- Every branch of `Parameter.__set__` returns without invoking any watcher
callback: the dispatch block of the method is commented out in this
repository. -/
theorem set_invocations_nil (p : ParamSlots) (obj : SetTarget) (cd : PyDict) (v : PyObj) :
    (Parameter.set p obj cd v).invocations = [] := by
  unfold Parameter.set
  dsimp only
  repeat' split
  all_goals rfl

/-- C8: what the code actually does at name binding. The claim says the first
binding of an unbound Parameter succeeds and stores the attribute name, and
only a rebinding raises. In this repository `Parameter.__setattr__` raises on
every assignment to `name` (its guard reads `attribute == 'name' or ...`
where the intent — per its own error text, which speaks of a parameter
already "bound to a Parameterized" — is `and`), so `Parameter.__init__`
(whose second statement is `self.name = None`) and the first
`__set_name__` binding of a fresh parameter both raise the name-guard
AttributeError. -/
theorem C8_name_binding_always_raises :
    (∀ a : InitArgs, Parameter.init a = Except.error nameGuardError) ∧
    (∀ (s : ParamSlots) (n : String), s.name = none →
      Parameter.setName s n = Except.error nameGuardError) := by
  constructor
  · intro a
    rfl
  · intro s n h
    simp only [Parameter.setName, h, Option.isSome_none, Bool.false_eq_true, if_false]
    rfl

/-- C9 counterexample: creating a Parameter with constant=True and default
None is not rejected by the constant/allow_None rule. Its construction fails
with the name-guard AttributeError — the very same error as a plain
`Parameter()` with no flags at all — and never with the ValueError that
`__validate_slots` would raise, so nothing specifically rejects the
constant/None combination. -/
theorem C9_counterexample :
    Parameter.init { default := noneObj, constant := true } = Except.error nameGuardError ∧
    Parameter.init {} = Except.error nameGuardError ∧
    nameGuardError ≠ PyErr.valueError "constant values cannot be allowed to be None." := by
  exact ⟨rfl, rfl, by decide⟩

/-- C9 (amended): the invariant `constant implies not allow_None` is written
in `__validate_slots`, which would indeed reject the combination — for a
constant Parameter specified with default None the slot computation makes
`allow_None` True and `validateSlots` errors on the resulting pair — but no
code path invokes the check (its only caller `__post_owner_init` is never
called), and `Parameter.__init__` in fact fails earlier, with the unrelated
name-guard AttributeError, for every argument combination. The
constant/allow_None invariant is therefore unenforced; the library's own
`Parameterized.name` is declared exactly as `String(default=None,
constant=True)`. -/
theorem C9_constant_allow_none_unenforced :
    ∀ a : InitArgs, a.constant = true → a.default.val = PyVal.vnone →
      allowNoneValue a.default a.allow_None = true ∧
      validateSlots a.constant (allowNoneValue a.default a.allow_None) =
        Except.error (PyErr.valueError "constant values cannot be allowed to be None.") ∧
      Parameter.init a = Except.error nameGuardError := by
  intro a hc hd
  refine ⟨by simp [allowNoneValue, hd], by simp [validateSlots, allowNoneValue, hd, hc], rfl⟩

/-- C9 witness: the amended statement evaluated at
`Parameter(default=None, constant=True)`. -/
theorem C9_witness :
    allowNoneValue noneObj false = true ∧
    validateSlots true (allowNoneValue noneObj false) =
      Except.error (PyErr.valueError "constant values cannot be allowed to be None.") ∧
    Parameter.init { default := noneObj, constant := true } = Except.error nameGuardError :=
  C9_constant_allow_none_unenforced { default := noneObj, constant := true } rfl rfl

/-- C10 counterexample: constructing a Parameter with readonly=False,
constant=True and deep_copy=False never yields an object on which
`deep_copy` can be read back at all: `Parameter.__init__` raises the
name-guard AttributeError before its `self.deep_copy = deep_copy`
assignment. -/
theorem C10_counterexample :
    Parameter.init
        { default := { oid := 1, val := PyVal.vint 5 }, constant := true } =
      Except.error nameGuardError := rfl

/-- C10 (amended): whenever an assignment to `deep_copy` does execute, the
property setter maintains exactly the claimed invariant — for readonly
parameters the stored `_deep_copy` is False regardless of the requested
value, for non-readonly constant parameters it is True even when False was
requested, and otherwise it is the requested value — but `Parameter.__init__`
never reaches its `deep_copy` assignment (it raises at `self.name = None`),
so no constructed Parameter ever exhibits the read-back the claim
describes. -/
theorem C10_deep_copy_setter_invariant :
    ∀ (c q : Bool),
      deepCopyValue true c q = false ∧
      deepCopyValue false true q = true ∧
      deepCopyValue false false q = q ∧
      Parameter.init { constant := c, deep_copy := q } = Except.error nameGuardError := by
  intro c q
  refine ⟨rfl, by simp [deepCopyValue], by simp [deepCopyValue], rfl⟩

/-- C5: what class-level attribute assignment actually does. The claim says
assigning to a class attribute that already denotes a Parameter routes
through that Parameter's `__set__`, mutating its default. In this repository
`ParameterizedMetaclass.__setattr__` raises ValueError on every call: its
first statement unpacks `get_param_descriptor`'s 2-tuple into the single
target `parameter,`, so neither the routing to `__set__` nor the
plain `type.__setattr__` fallback is ever reached. -/
theorem C5_metaclass_setattr_always_unpack_error :
    ∀ (hier : ClassHierarchy) (attr : String),
      metaclassSetattr hier attr =
        Except.error (PyErr.valueError "too many values to unpack (expected 1)") := by
  intro hier attr
  unfold metaclassSetattr get_param_descriptor
  cases h : hier.findSome? (fun ce =>
      (ce.2.find? (fun kv => kv.1 = attr)).map (fun kv => (ce.1, kv.2))) with
  | none => rfl
  | some pc => cases pc with
    | mk c p => rfl

/-- C6 counterexample: a class-level set attempt on the readonly parameter r
of class C fails, but with the ValueError of the metaclass unpack bug, not
with the read-only permission TypeError (the readonly check of
`Parameter.__set__` is never reached from class-level assignment); and a
class-level get on r raises AttributeError (`None.__dict__`) rather than
returning the declared default. -/
theorem C6_counterexample :
    metaclassSetattr hierC "r" =
      Except.error (PyErr.valueError "too many values to unpack (expected 1)") ∧
    Parameter.get rParamC none =
      Except.error (PyErr.attributeError "NoneType object has no attribute __dict__") ∧
    PyErr.valueError "too many values to unpack (expected 1)" ≠ readonlyError := by
  exact ⟨rfl, rfl, by decide⟩

/-- C6 (amended): an instance-level set attempt on a readonly parameter
fails with the read-only permission TypeError, raised as the first statement
of `Parameter.__set__` — before validation and before any store, so the
target's `__dict__` is unchanged and no watcher is invoked — and an
instance-level get still returns the declared default when no value is
stored. A class-level set attempt also fails before any mutation, but with
the metaclass unpack ValueError instead of the permission error, and a
class-level get raises AttributeError instead of returning the default. -/
theorem C6_readonly_set_fails_before_mutation :
    ∀ (p : ParamSlots) (obj : SetTarget) (cd : PyDict) (v : PyObj) (d : PyDict),
      p.readonly = true →
      dictFind d p.internal_name = none →
      Parameter.set p obj cd v =
        { owner := obj, error := some readonlyError, invocations := [] } ∧
      Parameter.get p (some d) = Except.ok p.default := by
  intro p obj cd v d hr hd
  refine ⟨by simp [Parameter.set, hr], by simp [Parameter.get, hd]⟩

/-- C6 witness: the amended statement evaluated on the readonly parameter r
of class C, an initialized instance with an empty `__dict__`, and the value
10. -/
theorem C6_witness :
    Parameter.set rParamC (SetTarget.inst [] true) [] objTen =
      { owner := SetTarget.inst [] true, error := some readonlyError, invocations := [] } ∧
    Parameter.get rParamC (some []) = Except.ok rParamC.default :=
  C6_readonly_set_fails_before_mutation rParamC (SetTarget.inst [] true) [] objTen [] rfl rfl

/-- C7: what `update()` actually does. The claim says an unknown keyword
makes update fail with a name-resolution error after restoring the
pre-update batching mode. In this repository every `update()` call — with
known or unknown keywords — raises AttributeError at its third statement
(`self_or_cls = self_.self_or_cls`, an attribute the fork renamed away)
after setting `_BATCH_WATCH = True`, and no restore statement runs: the
batching flag is left True whatever its entry value was (even the error
path the claim describes would set it to False, not to the saved value). -/
theorem C7_update_raises_and_leaves_batching_on :
    ∀ (pn : List String) (st : DispatcherState) (kwargs : List (String × PyObj)),
      pn.contains "self_or_cls" = false →
      InstanceParameters.update pn st kwargs =
        ({ st with BATCH_WATCH := true },
         some (PyErr.attributeError "param object has no attribute self_or_cls")) := by
  intro pn st kwargs h
  simp only [InstanceParameters.update, instanceParametersGetattr,
    classParametersGetattrFallback, h, Bool.false_eq_true, if_false]
  rfl

/-- C7 witness: `c.param.update(z=1)` on an instance of class C whose
dispatcher is idle: the call raises AttributeError and leaves the batching
flag True. -/
theorem C7_witness :
    InstanceParameters.update paramNamesC {} [("z", objOne)] =
      ({ BATCH_WATCH := true },
       some (PyErr.attributeError "param object has no attribute self_or_cls")) :=
  C7_update_raises_and_leaves_batching_on paramNamesC {} [("z", objOne)] rfl

/-- C1: what change notification actually does. The claim says a watcher
registered through `watch(..., onlychanged=True)` on the value of P is
invoked exactly once, with old/new populated, when P is set to a new value,
and zero times when P is re-set to its current value. In this repository the
registration itself raises NameError (`_register_watcher` references the
undefined name `self_`), and `Parameter.__set__` invokes no watcher in any
branch — its whole value-dispatch block is commented out, and for an
instance owner it raises TypeError at `issubclass(owner, ...)` after storing
the value — so every set results in zero callback invocations. -/
theorem C1_watch_raises_and_set_invokes_no_watcher :
    ∀ (pn : List String) (y : String) (fn : Nat) (p : ParamSlots) (d cd : PyDict) (v : PyObj),
      pn.contains y = true →
      InstanceParameters.watch pn none none fn [y] "value" true false 0 =
        Except.error (PyErr.nameError "name self_ is not defined") ∧
      (Parameter.set p (SetTarget.inst d true) cd v).invocations = [] := by
  intro pn y fn p d cd v h
  constructor
  · unfold InstanceParameters.watch registerWatcher
    simp [h]
  · exact set_invocations_nil p (SetTarget.inst d true) cd v

/-- C1 witness: registering a change-only watcher on parameter y of class C
raises NameError, and setting y to 3 on an initialized instance invokes no
watcher. -/
theorem C1_witness :
    InstanceParameters.watch paramNamesC none none 7 ["y"] "value" true false 0 =
      Except.error (PyErr.nameError "name self_ is not defined") ∧
    (Parameter.set yParamC (SetTarget.inst [] true) [] objThree).invocations = [] :=
  C1_watch_raises_and_set_invokes_no_watcher paramNamesC "y" 7 yParamC [] [] objThree rfl

/-- C2: what construction with a constant parameter actually does. The claim
says `C(P=v1)` succeeds with `c.P == v1`, a later `c.P = v2` raises the
immutability error, and `c.P = v1` (identical) succeeds. In this repository
`Parameterized.__init__` raises TypeError on every construction — the
`InstanceParameters(self.__class__, self=self)` call passes `self` both
positionally and as a keyword — and even `_setup_params` itself raises
ValueError on the first keyword (the single-target unpack of
`get_param_descriptor`'s 2-tuple), while its `setattr(self, name, val)`
would write onto the registry object rather than the instance. -/
theorem C2_construction_always_raises :
    (∀ (hier : ClassHierarchy) (n : Nat) (kwargs : List (String × PyObj)),
      Parameterized.init hier n kwargs =
        Except.error (PyErr.typeError "got multiple values for argument")) ∧
    (∀ (hier : ClassHierarchy) (n : Nat) (name : String) (val : PyObj)
      (rest : List (String × PyObj)),
      (setup_params hier n ((name, val) :: rest)).error =
        some (PyErr.valueError "too many values to unpack (expected 1)")) := by
  constructor
  · intro hier n kwargs
    rfl
  · intro hier n name val rest
    unfold setup_params
    dsimp only
    unfold setupKwargsLoop get_param_descriptor
    cases h : hier.findSome? (fun ce =>
        (ce.2.find? (fun kv => kv.1 = name)).map (fun kv => (ce.1, kv.2))) with
    | none => rfl
    | some pc => cases pc with
      | mk c p => rfl

/-- C3: what construction with an unknown keyword actually does. The claim
says `C(z=1)` succeeds, leaves z unset and logs a warning, this being the
only soft failure mode of construction. In this repository the construction
raises TypeError (the registry-constructor binding bug) before keywords are
even examined; `_setup_params` itself would raise ValueError on the keyword
(its unpack bug) and contains no logging call at all, so nothing is ever
logged and no registry attribute is written. -/
theorem C3_unknown_kwarg_raises :
    Parameterized.init hierC 100 [("z", objOne)] =
      Except.error (PyErr.typeError "got multiple values for argument") ∧
    (setup_params hierC 100 [("z", objOne)]).error =
      some (PyErr.valueError "too many values to unpack (expected 1)") ∧
    (setup_params hierC 100 [("z", objOne)]).selfAttrs = [] := by
  exact ⟨rfl, rfl, rfl⟩

/-- C4: what a batching scope actually delivers. The claim says three writes
to the same parameter inside one batching scope coalesce into exactly one
Event per watcher carrying the final value, delivered in precedence order,
draining until quiescence. In this repository the first write already raises
TypeError (`issubclass` on the instance owner) after storing the value, no
Event is ever queued (the dispatch block of `__set__` is commented out), and
the drain the scope runs on exit itself raises AttributeError (`self_or_cls`
does not exist), which replaces the body's exception — so watchers receive
zero events, not one. -/
theorem C4_batch_scope_delivers_no_events :
    batchScope paramNamesC (setThrice yParamC [] objOne objTwo objThree) {} =
      ({}, [], some (PyErr.attributeError "param object has no attribute self_or_cls")) ∧
    (setThrice yParamC [] objOne objTwo objThree { BATCH_WATCH := true }).2.2 =
      some issubclassError := by
  exact ⟨rfl, rfl⟩
